import Mathlib

/-!
Shallow embedding of the Farming Simulator Crop Master Dashboard
(Flask + SQLite, `src/app.py` and the schema files under `src/database/`).

Modelling conventions:
  * SQLite REAL values (monetary amounts, areas, yields, prices) are
    modelled as `ℚ`; dates and timestamps are opaque strings.
  * A table is a list of rows; `UPDATE ... WHERE k = ?` is a `List.map`
    guarded by the key test, `DELETE ... WHERE k = ?` is a `List.filter`,
    `SELECT ... WHERE k = ? ... fetchone()` is `List.find?`, and
    `INSERT` appends at the end of the list.
  * Request handlers become functions from a database state (plus the
    parsed request payload) to a response value and a new state.  The
    Flask plumbing (connection handling, flash messages, redirects,
    rendering) and failure modes outside the data logic (missing
    database file, malformed required form fields) are outside the model.
  * Schema columns that no embedded handler reads or writes (free-text
    details, GPS data, quality pass-through fields, audit id columns that
    nothing queries) are omitted from the row structures.
-/

namespace FarmDash

/-- Dates and timestamps are carried around as opaque strings. -/
abbrev Date := String

/-- A row of the `fields` table (columns used by the embedded handlers). -/
structure FieldRow where
  field_id : String
  field_name : String
  size_hectares : ℚ
  deriving Repr, DecidableEq

/-- A row of the `crop_seasons` table; `field_id` is a foreign key into `fields`. -/
structure CropSeasonRow where
  season_id : Nat
  field_id : String
  crop_year : Int
  crop_type : String
  deriving Repr, DecidableEq

/-- A row of the `field_operations` table; `field_id` references `fields`. -/
structure OperationRow where
  operation_id : Nat
  field_id : String
  operation_type : String
  deriving Repr, DecidableEq

/-- A row of the `weather_events` table; `field_id` references `fields`. -/
structure WeatherRow where
  event_id : Nat
  field_id : String
  weather_type : String
  deriving Repr, DecidableEq

/-- A row of the `planting_records` table. -/
structure PlantingRow where
  planting_id : Nat
  field_id : String
  crop_type : String
  variety : String
  planting_date : Date
  planted_area_ha : ℚ
  seed_cost : ℚ
  fertilizer_cost : ℚ
  lime_cost : ℚ
  labor_cost : ℚ
  equipment_cost : ℚ
  fuel_cost : ℚ
  other_costs : ℚ
  total_planting_cost : ℚ
  cost_per_hectare : ℚ
  status : String
  deriving Repr, DecidableEq

/-- A row of the `field_maintenance` table; `planting_id` is nullable. -/
structure MaintenanceRow where
  maintenance_id : Nat
  field_id : String
  planting_id : Option Nat
  maintenance_type : String
  total_cost : ℚ
  deriving Repr, DecidableEq

/-- A row of the `harvest_records` table (the columns the handler computes). -/
structure HarvestRow where
  planting_id : Nat
  field_id : String
  harvest_date : Date
  harvest_season : String
  total_yield_tonnes : ℚ
  yield_per_hectare : ℚ
  harvested_area_ha : ℚ
  market_price_per_tonne : ℚ
  price_premium : ℚ
  buyer_name : String
  sale_location : String
  harvest_labor_cost : ℚ
  harvest_equipment_cost : ℚ
  harvest_fuel_cost : ℚ
  transport_cost : ℚ
  drying_cost : ℚ
  storage_cost : ℚ
  other_harvest_costs : ℚ
  total_harvest_cost : ℚ
  gross_revenue : ℚ
  total_costs : ℚ
  net_profit : ℚ
  profit_per_hectare : ℚ
  roi_percent : ℚ
  break_even_price : ℚ
  notes : String
  deriving Repr, DecidableEq

/-- A row of the `crop_storage` table; `crop_name` is UNIQUE in the schema. -/
structure CropStorageRow where
  crop_name : String
  quantity_stored : ℚ
  storage_capacity : ℚ
  current_market_price : ℚ
  sale_location : String
  last_price_update : Date
  notes : String
  updated_date : Date
  deriving Repr, DecidableEq

/-- A row of the `sale_locations` table. -/
structure LocationRow where
  location_id : Nat
  location_name : String
  deriving Repr, DecidableEq

/-- A row of the `price_history` table; `sale_location` is nullable
(the AJAX field updater inserts without one). -/
structure PriceHistoryRow where
  crop_name : String
  price : ℚ
  sale_location : Option String
  price_date : Date
  deriving Repr, DecidableEq

/-- The whole SQLite database, one list per table. -/
structure DB where
  fields : List FieldRow
  crop_seasons : List CropSeasonRow
  field_operations : List OperationRow
  weather_events : List WeatherRow
  planting_records : List PlantingRow
  field_maintenance : List MaintenanceRow
  harvest_records : List HarvestRow
  crop_storage : List CropStorageRow
  sale_locations : List LocationRow
  price_history : List PriceHistoryRow
  deriving Repr, DecidableEq

/-- A JSON value sent for the generic storage update (`request.json.get('value')`).
`num q` stands for any payload that Python's `float(...)` converts successfully
(a JSON number or a numeric string); `str s` stands for a payload on which
`float(...)` raises `ValueError`. -/
inductive SqlValue where
  | num (q : ℚ)
  | str (s : String)
  deriving Repr, DecidableEq

/-- Rendering used when a numeric JSON value lands in a TEXT column
(SQLite's dynamic typing stores it anyway). -/
def SqlValue.toStr : SqlValue → String
  | .num q => toString q
  | .str s => s

/-- Numeric view of a value; the handler only stores a value into a REAL
column after the `float(...)` conversion has succeeded, so the `str` case
is unreachable there. -/
def SqlValue.toNum : SqlValue → ℚ
  | .num q => q
  | .str _ => 0

/-- Response of `/fields/<field_id>/delete` (`delete_field`): `none` models the
"Field not found!" flash with the database untouched, `some db` the success
redirect with the new state. -/
def delete_field (db : DB) (field_id : String) : Option DB :=
  match db.fields.find? (fun f => f.field_id == field_id) with
  | none => none
  | some _ => some
      { db with
        crop_seasons := db.crop_seasons.filter (fun r => !(r.field_id == field_id)),
        field_operations := db.field_operations.filter (fun r => !(r.field_id == field_id)),
        weather_events := db.weather_events.filter (fun r => !(r.field_id == field_id)),
        fields := db.fields.filter (fun r => !(r.field_id == field_id)) }

/-- JSON response of `/storage/update-quantity`. -/
inductive UpdateQtyResp where
  | failure (msg : String)
  | ok (total_value : ℚ)
  deriving Repr, DecidableEq

/-- The `/storage/update-quantity` AJAX handler (`update_quantity`):
sets `quantity_stored` on the row whose `crop_name` matches, then reports
`quantity_stored * current_market_price` for that row (0 when no row matches). -/
def update_quantity (db : DB) (crop_name : String) (quantity : ℚ) (now : Date) :
    UpdateQtyResp × DB :=
  let storage' := db.crop_storage.map (fun r =>
    if r.crop_name == crop_name then
      { r with quantity_stored := quantity, updated_date := now }
    else r)
  let total : ℚ :=
    match storage'.find? (fun r => r.crop_name == crop_name) with
    | some r => r.quantity_stored * r.current_market_price
    | none => 0
  (.ok total, { db with crop_storage := storage' })

/-- The allow-list of updatable columns in `update_storage_field`. -/
def allowed_fields : List String :=
  ["quantity_stored", "storage_capacity", "current_market_price",
   "sale_location", "notes"]

/-- The columns `update_storage_field` converts with `float(...)`. -/
def numeric_fields : List String :=
  ["quantity_stored", "storage_capacity", "current_market_price"]

/-- One step of `UPDATE crop_storage SET <field_name> = ?, updated_date = ?`
applied to a single row (the handler has already vetted `field_name`
against the allow-list, so the final catch-all is unreachable). -/
def applyStorageField (r : CropStorageRow) (field_name : String) (v : SqlValue)
    (now : Date) : CropStorageRow :=
  if field_name == "quantity_stored" then
    { r with quantity_stored := v.toNum, updated_date := now }
  else if field_name == "storage_capacity" then
    { r with storage_capacity := v.toNum, updated_date := now }
  else if field_name == "current_market_price" then
    { r with current_market_price := v.toNum, updated_date := now }
  else if field_name == "sale_location" then
    { r with sale_location := v.toStr, updated_date := now }
  else if field_name == "notes" then
    { r with notes := v.toStr, updated_date := now }
  else r

/-- SQLite `ROUND(x, 1)`; ties on negative values differ from SQLite's
round-half-away-from-zero, which no embedded property depends on. -/
def round1 (x : ℚ) : ℚ := (⌊x * 10 + 1 / 2⌋ : ℚ) / 10

/-- Python's `round` to 0 digits as used by the format spec `.0f`
(round half to even). -/
def pyRound0 (x : ℚ) : Int :=
  let f := ⌊x⌋
  let frac := x - f
  if frac < 1 / 2 then f
  else if frac > 1 / 2 then f + 1
  else if f % 2 = 0 then f else f + 1

/-- Insert a thousands separator into a reversed digit list: after every
three digits already emitted, a comma precedes the next one. -/
def commaRevAux : Nat → List Char → List Char
  | _, [] => []
  | 3, c :: cs => ',' :: c :: commaRevAux 1 cs
  | k, c :: cs => c :: commaRevAux (k + 1) cs

/-- The Python f-string piece rendering a float with a dollar sign,
thousands separators and no decimals. -/
def formatMoney (v : ℚ) : String :=
  let r := pyRound0 v
  let digits := (Nat.toDigits 10 r.natAbs).reverse
  let body := String.mk (commaRevAux 0 digits).reverse
  "$" ++ (if r < 0 then "-" else "") ++ body

/-- JSON response of `/storage/update-field`.  In the `ok` case
`capacity_used` is `none` when the SQL expression divides by a zero
capacity (SQLite yields NULL). -/
inductive UpdateFieldResp where
  | failure (msg : String)
  | ok (total_value : ℚ) (capacity_used : Option ℚ) (formatted_value : String)
  deriving Repr, DecidableEq

/-- Price-history step of `update_storage_field`: when the target row
exists and holds a different price, append a `price_history` row recording
the new price (the AJAX updater passes no sale location). -/
def storagePriceHistory (db : DB) (crop_name : String) (v : ℚ) (today : Date) : DB :=
  match db.crop_storage.find? (fun r => r.crop_name == crop_name) with
  | some old =>
      if old.current_market_price ≠ v then
        { db with price_history := db.price_history ++
            [{ crop_name := crop_name, price := v,
               sale_location := none, price_date := today }] }
      else db
  | none => db

/-- Summary row `update_storage_field` reports back after its UPDATE:
total value, capacity percentage (NULL on a zero capacity) and a formatted
dollar amount; all three default when the crop row does not exist. -/
def storageUpdateResp (l : List CropStorageRow) (crop_name : String) :
    UpdateFieldResp :=
  match l.find? (fun r => r.crop_name == crop_name) with
  | some r =>
      let tv := r.quantity_stored * r.current_market_price
      UpdateFieldResp.ok tv
        (if r.storage_capacity = 0 then none
         else some (round1 (r.quantity_stored / r.storage_capacity * 100)))
        (formatMoney tv)
  | none => UpdateFieldResp.ok 0 (some 0) "$0"

/-- The `/storage/update-field` AJAX handler (`update_storage_field`):
allow-list check, numeric conversion, price-history append when a price
update differs from the stored value, the UPDATE itself, and the summary
row reported back. -/
def update_storage_field (db : DB) (crop_name field_name : String)
    (new_value : SqlValue) (today : Date) (now : Date) : UpdateFieldResp × DB :=
  if !(allowed_fields.contains field_name) then
    (.failure "Invalid field", db)
  else if numeric_fields.contains field_name && !(match new_value with
      | .num _ => true | .str _ => false) then
    (.failure "Invalid numeric value", db)
  else
    let db1 :=
      if field_name == "current_market_price" then
        storagePriceHistory db crop_name new_value.toNum today
      else db
    let storage' := db1.crop_storage.map (fun r =>
      if r.crop_name == crop_name then applyStorageField r field_name new_value now
      else r)
    (storageUpdateResp storage' crop_name, { db1 with crop_storage := storage' })

/-- Outcome of `/storage/locations/<location_id>/delete`. -/
inductive DeleteLocResult where
  | notFound
  | inUse (count : Nat)
  | deleted (location_name : String)
  deriving Repr, DecidableEq

/-- The `delete_location` handler: refuse when any `crop_storage` row's
`sale_location` equals the location's name, otherwise delete the row. -/
def delete_location (db : DB) (location_id : Nat) : DeleteLocResult × DB :=
  match db.sale_locations.find? (fun l => l.location_id == location_id) with
  | none => (.notFound, db)
  | some loc =>
      let usage := (db.crop_storage.filter
        (fun r => r.sale_location == loc.location_name)).length
      if usage > 0 then (.inUse usage, db)
      else
        let locs' := db.sale_locations.filter (fun l => !(l.location_id == location_id))
        (.deleted loc.location_name, { db with sale_locations := locs' })

/-- Parsed form payload of `/planting/add` (fields the handler converts or
stores; empty optional numeric fields become their Python defaults upstream). -/
structure PlantingForm where
  field_id : String
  crop_type : String
  variety : String
  planting_date : Date
  planted_area_ha : ℚ
  seed_cost : ℚ
  fertilizer_cost : ℚ
  lime_cost : ℚ
  labor_cost : ℚ
  equipment_cost : ℚ
  fuel_cost : ℚ
  other_costs : ℚ
  deriving Repr, DecidableEq

/-- AUTOINCREMENT id for a new `planting_records` row. -/
def nextPlantingId (db : DB) : Nat :=
  (db.planting_records.map (fun p => p.planting_id)).foldr max 0 + 1

/-- The row `add_planting` inserts: itemized costs summed into
`total_planting_cost`, `cost_per_hectare` guarded against a non-positive
area, status set to the literal Active. -/
def mkPlantingRow (id : Nat) (f : PlantingForm) : PlantingRow :=
  let total_planting_cost := f.seed_cost + f.fertilizer_cost + f.lime_cost +
    f.labor_cost + f.equipment_cost + f.fuel_cost + f.other_costs
  { planting_id := id
    field_id := f.field_id
    crop_type := f.crop_type
    variety := f.variety
    planting_date := f.planting_date
    planted_area_ha := f.planted_area_ha
    seed_cost := f.seed_cost
    fertilizer_cost := f.fertilizer_cost
    lime_cost := f.lime_cost
    labor_cost := f.labor_cost
    equipment_cost := f.equipment_cost
    fuel_cost := f.fuel_cost
    other_costs := f.other_costs
    total_planting_cost := total_planting_cost
    cost_per_hectare :=
      if f.planted_area_ha > 0 then total_planting_cost / f.planted_area_ha else 0
    status := "Active" }

/-- The POST branch of `/planting/add` (`add_planting`): computes the cost
totals and inserts the record (the handler performs no existence check on
`field_id`, and the app never enables SQLite foreign-key enforcement). -/
def add_planting (db : DB) (f : PlantingForm) : DB :=
  { db with planting_records :=
      db.planting_records ++ [mkPlantingRow (nextPlantingId db) f] }

/-- Parsed form payload of `/harvest/add/<planting_id>`.
`harvested_area_ha` is `none` when the form key is absent, in which case the
handler falls back to the planting's `planted_area_ha`. -/
structure HarvestForm where
  harvest_date : Date
  harvest_season : String
  total_yield_tonnes : ℚ
  harvested_area_ha : Option ℚ
  market_price_per_tonne : ℚ
  price_premium : ℚ
  buyer_name : String
  sale_location : String
  harvest_labor_cost : ℚ
  harvest_equipment_cost : ℚ
  harvest_fuel_cost : ℚ
  transport_cost : ℚ
  drying_cost : ℚ
  storage_cost : ℚ
  other_harvest_costs : ℚ
  notes : String
  deriving Repr, DecidableEq

/-- The correlated subquery `SELECT SUM(total_cost) FROM field_maintenance
WHERE planting_id = p.planting_id`: SQL SUM is NULL when no row matches. -/
def maintenance_costs (db : DB) (planting_id : Nat) : Option ℚ :=
  let ms := db.field_maintenance.filter (fun m => m.planting_id == some planting_id)
  if ms.isEmpty then none else some (ms.map (fun m => m.total_cost)).sum

/-- The harvest row `add_harvest` computes and inserts: yield, revenue,
cost, profit, ROI and break-even arithmetic, each division guarded by a
strict positivity test on its denominator.  `mcosts` is the maintenance-cost
subquery result; Python's `or 0` collapses both NULL and 0.0 to 0. -/
def mkHarvestRow (p : PlantingRow) (mcosts : Option ℚ) (f : HarvestForm) : HarvestRow :=
  let harvested_area_ha := f.harvested_area_ha.getD p.planted_area_ha
  let yield_per_hectare :=
    if harvested_area_ha > 0 then f.total_yield_tonnes / harvested_area_ha else 0
  let total_harvest_cost := f.harvest_labor_cost + f.harvest_equipment_cost +
    f.harvest_fuel_cost + f.transport_cost + f.drying_cost + f.storage_cost +
    f.other_harvest_costs
  let gross_revenue := f.total_yield_tonnes * (f.market_price_per_tonne + f.price_premium)
  let total_costs := p.total_planting_cost + mcosts.getD 0 + total_harvest_cost
  let net_profit := gross_revenue - total_costs
  { planting_id := p.planting_id
    field_id := p.field_id
    harvest_date := f.harvest_date
    harvest_season := f.harvest_season
    total_yield_tonnes := f.total_yield_tonnes
    yield_per_hectare := yield_per_hectare
    harvested_area_ha := harvested_area_ha
    market_price_per_tonne := f.market_price_per_tonne
    price_premium := f.price_premium
    buyer_name := f.buyer_name
    sale_location := f.sale_location
    harvest_labor_cost := f.harvest_labor_cost
    harvest_equipment_cost := f.harvest_equipment_cost
    harvest_fuel_cost := f.harvest_fuel_cost
    transport_cost := f.transport_cost
    drying_cost := f.drying_cost
    storage_cost := f.storage_cost
    other_harvest_costs := f.other_harvest_costs
    total_harvest_cost := total_harvest_cost
    gross_revenue := gross_revenue
    total_costs := total_costs
    net_profit := net_profit
    profit_per_hectare :=
      if harvested_area_ha > 0 then net_profit / harvested_area_ha else 0
    roi_percent := if total_costs > 0 then net_profit / total_costs * 100 else 0
    break_even_price :=
      if f.total_yield_tonnes > 0 then total_costs / f.total_yield_tonnes else 0
    notes := f.notes }

/-- The POST branch of `/harvest/add/<planting_id>` (`add_harvest`): the
planting lookup joins `fields`, so `none` (the "Planting record not found!"
redirect) also covers a dangling `field_id`.  On success the harvest row is
inserted, the planting's status becomes Harvested, and when a `crop_storage`
row carries the planting's crop type as its `crop_name`, that row's quantity
is incremented by the yield, its price overwritten with the harvest's market
price, and its `last_price_update` set to the harvest date.
`mutateHarvest` is the write sequence the handler performs once the lookup
has succeeded. -/
def mutateHarvest (db : DB) (planting_id : Nat) (p : PlantingRow) (f : HarvestForm) : DB :=
  let row := mkHarvestRow p (maintenance_costs db planting_id) f
  let plantings' := db.planting_records.map (fun q =>
    if q.planting_id == planting_id then { q with status := "Harvested" } else q)
  let storage' :=
    match db.crop_storage.find? (fun r => r.crop_name == p.crop_type) with
    | some _ => db.crop_storage.map (fun r =>
        if r.crop_name == p.crop_type then
          { r with quantity_stored := r.quantity_stored + f.total_yield_tonnes,
                   current_market_price := f.market_price_per_tonne,
                   last_price_update := f.harvest_date }
        else r)
    | none => db.crop_storage
  { db with harvest_records := db.harvest_records ++ [row],
            planting_records := plantings',
            crop_storage := storage' }

def add_harvest (db : DB) (planting_id : Nat) (f : HarvestForm) : Option DB :=
  match db.planting_records.find? (fun p => p.planting_id == planting_id) with
  | none => none
  | some p =>
    if !(db.fields.any (fun fl => fl.field_id == p.field_id)) then none
    else some (mutateHarvest db planting_id p f)

/-! Concrete states used to exercise the handlers on closed inputs. -/

/-- A field as the add-field form would create it. -/
def sampleField : FieldRow :=
  { field_id := "F1", field_name := "North Valley", size_hectares := 15 }

/-- A storage row for Wheat, as seeded by `init_crop_storage.py` and then
edited to hold some stock. -/
def wheatRow : CropStorageRow :=
  { crop_name := "Wheat", quantity_stored := 5, storage_capacity := 2000,
    current_market_price := 100, sale_location := "Grain Elevator",
    last_price_update := "2025-01-01", notes := "", updated_date := "2025-01-01" }

/-- An active Wheat planting on field F1 with 1200 of accumulated costs. -/
def samplePlanting : PlantingRow :=
  { planting_id := 1, field_id := "F1", crop_type := "Wheat", variety := "",
    planting_date := "2025-04-01", planted_area_ha := 10,
    seed_cost := 500, fertilizer_cost := 400, lime_cost := 0, labor_cost := 200,
    equipment_cost := 100, fuel_cost := 0, other_costs := 0,
    total_planting_cost := 1200, cost_per_hectare := 120, status := "Active" }

/-- A small but fully populated database state. -/
def sampleDB : DB :=
  { fields := [sampleField],
    crop_seasons := [{ season_id := 1, field_id := "F1", crop_year := 2025,
                       crop_type := "Wheat" }],
    field_operations := [{ operation_id := 1, field_id := "F1",
                           operation_type := "Plowing" }],
    weather_events := [{ event_id := 1, field_id := "F1", weather_type := "Hail" }],
    planting_records := [samplePlanting],
    field_maintenance := [],
    harvest_records := [],
    crop_storage := [wheatRow],
    sale_locations := [{ location_id := 1, location_name := "Grain Elevator" },
                       { location_id := 2, location_name := "Dusty Depot" }],
    price_history := [] }

/-- The harvest form of the spec's worked scenario: yield 50 t over 10 ha at
price 200 with premium 10 and no itemized harvest costs. -/
def scenarioHarvestForm : HarvestForm :=
  { harvest_date := "2025-09-01", harvest_season := "Autumn",
    total_yield_tonnes := 50, harvested_area_ha := some 10,
    market_price_per_tonne := 200, price_premium := 10,
    buyer_name := "Main St Grain Co.", sale_location := "Grain Elevator",
    harvest_labor_cost := 0, harvest_equipment_cost := 0, harvest_fuel_cost := 0,
    transport_cost := 0, drying_cost := 0, storage_cost := 0,
    other_harvest_costs := 0, notes := "" }

/-- The harvest row the scenario submission computes. -/
def scenarioRow : HarvestRow :=
  mkHarvestRow samplePlanting (maintenance_costs sampleDB 1) scenarioHarvestForm

/-- The database after the scenario harvest submission. -/
def sampleDB' : DB := (add_harvest sampleDB 1 scenarioHarvestForm).getD sampleDB

/-- The database after deleting field F1. -/
def del3DB : DB := (delete_field sampleDB "F1").getD sampleDB

/-- The sample database with two maintenance rows, one tied to planting 1
and one tied to no planting. -/
def maintDB : DB :=
  { sampleDB with field_maintenance :=
      [{ maintenance_id := 1, field_id := "F1", planting_id := some 1,
         maintenance_type := "Weeding", total_cost := 150 },
       { maintenance_id := 2, field_id := "F1", planting_id := none,
         maintenance_type := "Plowing", total_cost := 999 }] }

/-- The maintenance-laden database after the scenario harvest submission. -/
def maintDB' : DB := (add_harvest maintDB 1 scenarioHarvestForm).getD maintDB

/-- The planting form of the spec's worked scenario: costs 100, 50 and 30
over 10 hectares. -/
def scenarioPlantingForm : PlantingForm :=
  { field_id := "F1", crop_type := "Corn", variety := "",
    planting_date := "2025-05-01", planted_area_ha := 10,
    seed_cost := 100, fertilizer_cost := 50, lime_cost := 0, labor_cost := 30,
    equipment_cost := 0, fuel_cost := 0, other_costs := 0 }

/-- The scenario planting form with a negative area. -/
def negAreaForm : PlantingForm :=
  { scenarioPlantingForm with planted_area_ha := -10 }

/-! List-level helper lemmas shared by the claim proofs. -/

/-- Mapping a function that fixes every element of a list is the identity. -/
theorem map_fix_eq_self {α : Type} (f : α → α) :
    ∀ l : List α, (∀ r ∈ l, f r = r) → l.map f = l
  | [], _ => rfl
  | a :: t, h => by
    rw [List.map_cons, h a (List.mem_cons_self a t),
      map_fix_eq_self f t (fun r hr => h r (List.mem_cons_of_mem a hr))]

/-- Lookup by crop name commutes with a map that preserves crop names. -/
theorem find?_map_cropName (g : CropStorageRow → CropStorageRow)
    (hg : ∀ r, (g r).crop_name = r.crop_name) (c : String) :
    ∀ l : List CropStorageRow,
      (l.map g).find? (fun r => r.crop_name == c) =
        (l.find? (fun r => r.crop_name == c)).map g
  | [] => rfl
  | a :: t => by
    have hga : ((g a).crop_name == c) = (a.crop_name == c) := by rw [hg a]
    cases h : a.crop_name == c with
    | true => simp [List.find?, hga, h]
    | false => simp [List.find?, hga, h, find?_map_cropName g hg c t]

/-- Python's `or 0` on the SUM subquery agrees with summing over the
filtered maintenance rows, also when no row matches. -/
theorem maintenance_costs_getD (db : DB) (pid : Nat) :
    (maintenance_costs db pid).getD 0 =
      ((db.field_maintenance.filter (fun m => m.planting_id == some pid)).map
        (fun m => m.total_cost)).sum := by
  unfold maintenance_costs
  cases hh : db.field_maintenance.filter (fun m => m.planting_id == some pid) with
  | nil => rfl
  | cons a t => rfl

/-- Shape of the database state a successful harvest submission produces. -/
theorem add_harvest_some (db : DB) (pid : Nat) (f : HarvestForm)
    (p : PlantingRow) (db' : DB)
    (hp : db.planting_records.find? (fun q => q.planting_id == pid) = some p)
    (h : add_harvest db pid f = some db') :
    db' = mutateHarvest db pid p f := by
  unfold add_harvest at h
  rw [hp] at h
  have h2 : (if (!db.fields.any fun fl => fl.field_id == p.field_id) = true then none
      else some (mutateHarvest db pid p f)) = some db' := h
  cases hany : db.fields.any (fun fl => fl.field_id == p.field_id) with
  | false => simp [hany] at h2
  | true =>
    simp only [hany, Bool.not_true, Bool.false_eq_true, if_false,
      Option.some.injEq] at h2
    exact h2.symm

/-- Projection facts about the harvest write sequence. -/
theorem mutateHarvest_harvest_records (db : DB) (pid : Nat) (p : PlantingRow)
    (f : HarvestForm) :
    (mutateHarvest db pid p f).harvest_records =
      db.harvest_records ++ [mkHarvestRow p (maintenance_costs db pid) f] := rfl

theorem mutateHarvest_price_history (db : DB) (pid : Nat) (p : PlantingRow)
    (f : HarvestForm) :
    (mutateHarvest db pid p f).price_history = db.price_history := rfl

theorem mutateHarvest_crop_storage (db : DB) (pid : Nat) (p : PlantingRow)
    (f : HarvestForm) :
    (mutateHarvest db pid p f).crop_storage =
      match db.crop_storage.find? (fun r => r.crop_name == p.crop_type) with
      | some _ => db.crop_storage.map (fun r =>
          if r.crop_name == p.crop_type then
            { r with quantity_stored := r.quantity_stored + f.total_yield_tonnes,
                     current_market_price := f.market_price_per_tonne,
                     last_price_update := f.harvest_date }
          else r)
      | none => db.crop_storage := rfl

/-- The Wheat storage row after the scenario harvest lands in storage. -/
def updatedWheat : CropStorageRow :=
  { wheatRow with
      quantity_stored := 55
      current_market_price := 200
      last_price_update := "2025-09-01" }

/-- C1: on a successful harvest submission, a `crop_storage` row whose
`crop_name` equals the planting's crop type (exact, case-sensitive match) has
its `quantity_stored` incremented by exactly the harvest's total yield, its
`current_market_price` overwritten with the harvest's market price and its
`last_price_update` set to the harvest date; rows with other crop names are
untouched; and when no row matches, the storage table is unchanged while the
harvest record is still inserted and no error is raised. -/
theorem harvest_reconciles_storage (db : DB) (pid : Nat) (f : HarvestForm)
    (p : PlantingRow) (db' : DB)
    (hp : db.planting_records.find? (fun q => q.planting_id == pid) = some p)
    (h : add_harvest db pid f = some db') :
    (∀ row, db.crop_storage.find? (fun r => r.crop_name == p.crop_type) = some row →
      db'.crop_storage.find? (fun r => r.crop_name == p.crop_type) =
        some { row with
               quantity_stored := row.quantity_stored + f.total_yield_tonnes,
               current_market_price := f.market_price_per_tonne,
               last_price_update := f.harvest_date }) ∧
    (∀ row ∈ db.crop_storage, ¬ row.crop_name = p.crop_type → row ∈ db'.crop_storage) ∧
    (db.crop_storage.find? (fun r => r.crop_name == p.crop_type) = none →
      db'.crop_storage = db.crop_storage) ∧
    db'.harvest_records =
      db.harvest_records ++ [mkHarvestRow p (maintenance_costs db pid) f] := by
  have hdb := add_harvest_some db pid f p db' hp h
  subst hdb
  have hg : ∀ r : CropStorageRow,
      ((if r.crop_name == p.crop_type then
        { r with quantity_stored := r.quantity_stored + f.total_yield_tonnes,
                 current_market_price := f.market_price_per_tonne,
                 last_price_update := f.harvest_date }
      else r)).crop_name = r.crop_name := by
    intro r
    by_cases hh : (r.crop_name == p.crop_type) = true <;> simp [hh]
  refine ⟨?_, ?_, ?_, mutateHarvest_harvest_records db pid p f⟩
  · intro row hrow
    rw [mutateHarvest_crop_storage]
    rw [hrow]
    have hfm := find?_map_cropName
      (fun r => if r.crop_name == p.crop_type then
        { r with quantity_stored := r.quantity_stored + f.total_yield_tonnes,
                 current_market_price := f.market_price_per_tonne,
                 last_price_update := f.harvest_date }
      else r) hg p.crop_type db.crop_storage
    rw [hfm, hrow, Option.map_some']
    have hbeq := List.find?_some hrow
    simp [hbeq]
  · intro row hmem hne
    rw [mutateHarvest_crop_storage]
    cases hfind : db.crop_storage.find? (fun r => r.crop_name == p.crop_type) with
    | none => exact hmem
    | some s =>
      have hrowfix : (if row.crop_name == p.crop_type then
          { row with quantity_stored := row.quantity_stored + f.total_yield_tonnes,
                     current_market_price := f.market_price_per_tonne,
                     last_price_update := f.harvest_date }
        else row) = row := by
        rw [if_neg]
        simp [hne]
      exact hrowfix ▸ List.mem_map_of_mem _ hmem
  · intro hnone
    rw [mutateHarvest_crop_storage, hnone]

/-- Witness for C1: the scenario harvest on the sample database bumps the
Wheat storage row from 5 to 55 tonnes, overwrites the price with 200 and
stamps the harvest date, and appends the harvest record. -/
theorem harvest_reconciles_storage_witness :
    sampleDB.planting_records.find? (fun q => q.planting_id == 1) = some samplePlanting ∧
    add_harvest sampleDB 1 scenarioHarvestForm = some sampleDB' ∧
    sampleDB'.crop_storage.find? (fun r => r.crop_name == "Wheat") = some updatedWheat ∧
    sampleDB'.harvest_records = [scenarioRow] := by
  have h := harvest_reconciles_storage sampleDB 1 scenarioHarvestForm samplePlanting
    sampleDB' rfl rfl
  refine ⟨rfl, rfl, ?_, h.2.2.2⟩
  have h1 := h.1 wheatRow rfl
  refine h1.trans ?_
  norm_num [wheatRow, updatedWheat, scenarioHarvestForm]

/-- C2: every stored harvest record's `gross_revenue` is
`total_yield_tonnes * (market_price + price_premium)` and its `net_profit`
is exactly `gross_revenue - total_costs`, for all inputs including zero
yield.  The spec's worked scenario is checked in the witness. -/
theorem harvest_revenue_profit (db : DB) (pid : Nat) (f : HarvestForm)
    (p : PlantingRow) (db' : DB)
    (hp : db.planting_records.find? (fun q => q.planting_id == pid) = some p)
    (h : add_harvest db pid f = some db') :
    db'.harvest_records.getLast? =
      some (mkHarvestRow p (maintenance_costs db pid) f) ∧
    (mkHarvestRow p (maintenance_costs db pid) f).gross_revenue =
      f.total_yield_tonnes * (f.market_price_per_tonne + f.price_premium) ∧
    (mkHarvestRow p (maintenance_costs db pid) f).net_profit =
      (mkHarvestRow p (maintenance_costs db pid) f).gross_revenue -
        (mkHarvestRow p (maintenance_costs db pid) f).total_costs := by
  have hdb := add_harvest_some db pid f p db' hp h
  subst hdb
  refine ⟨?_, rfl, rfl⟩
  rw [mutateHarvest_harvest_records]
  exact List.getLast?_concat _

/-- Witness for C2: the scenario harvest (yield 50, price 200, premium 10,
costs 1200) is stored with gross revenue 10500, net profit 9300, ROI 775
and break-even price 24. -/
theorem harvest_revenue_profit_witness :
    add_harvest sampleDB 1 scenarioHarvestForm = some sampleDB' ∧
    sampleDB'.harvest_records.getLast? = some scenarioRow ∧
    scenarioRow.gross_revenue = 10500 ∧
    scenarioRow.total_costs = 1200 ∧
    scenarioRow.net_profit = 9300 ∧
    scenarioRow.roi_percent = 775 ∧
    scenarioRow.break_even_price = 24 := by
  have h := harvest_revenue_profit sampleDB 1 scenarioHarvestForm samplePlanting
    sampleDB' rfl rfl
  refine ⟨rfl, h.1, ?_, ?_, ?_, ?_, ?_⟩ <;>
    norm_num [scenarioRow, mkHarvestRow, scenarioHarvestForm, samplePlanting,
      maintenance_costs, sampleDB]

/-- C5: every stored harvest record's `total_costs` is the planting's prior
`total_planting_cost`, plus the sum of `total_cost` over the maintenance
rows tied to that planting (0 when there are none), plus this harvest's
`total_harvest_cost`, which is itself the sum of the seven itemized
harvest costs. -/
theorem harvest_total_costs (db : DB) (pid : Nat) (f : HarvestForm)
    (p : PlantingRow) (db' : DB)
    (hp : db.planting_records.find? (fun q => q.planting_id == pid) = some p)
    (h : add_harvest db pid f = some db') :
    db'.harvest_records.getLast? =
      some (mkHarvestRow p (maintenance_costs db pid) f) ∧
    (mkHarvestRow p (maintenance_costs db pid) f).total_costs =
      p.total_planting_cost +
      ((db.field_maintenance.filter (fun m => m.planting_id == some pid)).map
        (fun m => m.total_cost)).sum +
      (mkHarvestRow p (maintenance_costs db pid) f).total_harvest_cost ∧
    (mkHarvestRow p (maintenance_costs db pid) f).total_harvest_cost =
      f.harvest_labor_cost + f.harvest_equipment_cost + f.harvest_fuel_cost +
      f.transport_cost + f.drying_cost + f.storage_cost +
      f.other_harvest_costs := by
  have hdb := add_harvest_some db pid f p db' hp h
  subst hdb
  have hlast : (mutateHarvest db pid p f).harvest_records.getLast? =
      some (mkHarvestRow p (maintenance_costs db pid) f) := by
    rw [mutateHarvest_harvest_records]
    exact List.getLast?_concat _
  refine ⟨hlast, ?_, rfl⟩
  have hg := maintenance_costs_getD db pid
  simp only [mkHarvestRow]
  rw [hg]

/-- Witness for C5: with planting costs 1200, one linked maintenance row of
150, an unlinked maintenance row of 999 and zero harvest costs, the stored
`total_costs` is 1200 + 150 + 0 = 1350. -/
theorem harvest_total_costs_witness :
    add_harvest maintDB 1 scenarioHarvestForm = some maintDB' ∧
    maintDB'.harvest_records.getLast? =
      some (mkHarvestRow samplePlanting (maintenance_costs maintDB 1)
        scenarioHarvestForm) ∧
    (mkHarvestRow samplePlanting (maintenance_costs maintDB 1)
      scenarioHarvestForm).total_costs = 1350 := by
  have h := harvest_total_costs maintDB 1 scenarioHarvestForm samplePlanting
    maintDB' rfl rfl
  refine ⟨rfl, h.1, ?_⟩
  norm_num [mkHarvestRow, scenarioHarvestForm, samplePlanting,
    maintenance_costs, maintDB, sampleDB]

/-- C3 counterexample: deleting field F1 succeeds but leaves the planting
record referencing F1 in place, so a dependent row of a table holding a
reference to the field survives the deletion. -/
theorem delete_field_leaves_planting_orphan :
    delete_field sampleDB "F1" = some del3DB ∧
    del3DB.fields = [] ∧
    del3DB.planting_records = [samplePlanting] ∧
    samplePlanting.field_id = "F1" := ⟨rfl, rfl, rfl, rfl⟩

/-- C3 amended: deleting a field removes the field row and every crop
season, field operation and weather event row referencing it, but the
planting, maintenance and harvest tables are left untouched, so rows there
that reference the field are not removed. -/
theorem delete_field_removes_main_dependents (db : DB) (fid : String) (db' : DB)
    (h : delete_field db fid = some db') :
    (∀ r ∈ db'.crop_seasons, ¬ r.field_id = fid) ∧
    (∀ r ∈ db'.field_operations, ¬ r.field_id = fid) ∧
    (∀ r ∈ db'.weather_events, ¬ r.field_id = fid) ∧
    (∀ r ∈ db'.fields, ¬ r.field_id = fid) ∧
    db'.planting_records = db.planting_records ∧
    db'.field_maintenance = db.field_maintenance ∧
    db'.harvest_records = db.harvest_records := by
  unfold delete_field at h
  cases hf : db.fields.find? (fun f => f.field_id == fid) with
  | none => rw [hf] at h; simp at h
  | some fr =>
    have h2 : some { db with
        crop_seasons := db.crop_seasons.filter (fun r => !(r.field_id == fid)),
        field_operations := db.field_operations.filter (fun r => !(r.field_id == fid)),
        weather_events := db.weather_events.filter (fun r => !(r.field_id == fid)),
        fields := db.fields.filter (fun r => !(r.field_id == fid)) } = some db' := by
      rw [hf] at h; exact h
    have h3 := Option.some.inj h2
    subst h3
    refine ⟨?_, ?_, ?_, ?_, rfl, rfl, rfl⟩ <;>
    · intro r hr heq
      have hm := (List.mem_filter.mp hr).2
      simp [heq] at hm

/-- Witness for the amended C3 on the sample database: deleting F1 empties
the three dependent tables yet keeps the planting table as it was. -/
theorem delete_field_removes_main_dependents_witness :
    delete_field sampleDB "F1" = some del3DB ∧
    del3DB.crop_seasons = [] ∧
    del3DB.field_operations = [] ∧
    del3DB.weather_events = [] ∧
    del3DB.planting_records = sampleDB.planting_records := by
  have h := delete_field_removes_main_dependents sampleDB "F1" del3DB rfl
  exact ⟨rfl, rfl, rfl, rfl, h.2.2.2.2.1⟩

/-- C4 counterexample: the scenario harvest overwrites the stored Wheat
price 100 with the differing market price 200, yet `price_history` stays
empty — the reconciler appends no row before applying the price update. -/
theorem harvest_price_overwrite_skips_history :
    add_harvest sampleDB 1 scenarioHarvestForm = some sampleDB' ∧
    sampleDB.crop_storage.map (fun r => r.current_market_price) = [100] ∧
    sampleDB'.crop_storage.map (fun r => r.current_market_price) = [200] ∧
    ¬ (100 : ℚ) = 200 ∧
    sampleDB.price_history = [] ∧
    sampleDB'.price_history = [] :=
  ⟨rfl, rfl, rfl, by decide, rfl, rfl⟩

/-- Projection of the field updater at the price column onto its
price-history step (the allow-list and numeric checks both pass there). -/
theorem usf_price_history_proj (db : DB) (c : String) (v : ℚ) (d n : Date) :
    (update_storage_field db c "current_market_price" (.num v) d n).2.price_history =
      (storagePriceHistory db c v d).price_history := rfl

/-- A differing price appends exactly one history row. -/
theorem storagePriceHistory_ne (db : DB) (c : String) (v : ℚ) (today : Date)
    (old : CropStorageRow)
    (hfind : db.crop_storage.find? (fun r => r.crop_name == c) = some old)
    (hne : ¬ old.current_market_price = v) :
    (storagePriceHistory db c v today).price_history =
      db.price_history ++
        [{ crop_name := c, price := v, sale_location := none,
           price_date := today }] := by
  unfold storagePriceHistory
  rw [hfind]
  show (if old.current_market_price ≠ v then
      { db with price_history := db.price_history ++
          [{ crop_name := c, price := v, sale_location := none,
             price_date := today }] }
    else db).price_history = _
  rw [if_pos hne]

/-- An equal price appends nothing. -/
theorem storagePriceHistory_same (db : DB) (c : String) (v : ℚ) (today : Date)
    (old : CropStorageRow)
    (hfind : db.crop_storage.find? (fun r => r.crop_name == c) = some old)
    (heq : old.current_market_price = v) :
    (storagePriceHistory db c v today).price_history = db.price_history := by
  unfold storagePriceHistory
  rw [hfind]
  show (if old.current_market_price ≠ v then
      { db with price_history := db.price_history ++
          [{ crop_name := c, price := v, sale_location := none,
             price_date := today }] }
    else db).price_history = _
  rw [if_neg (not_not_intro heq)]

/-- C4 amended: when the storage field-update endpoint writes a
`current_market_price` differing from the stored value, a `price_history`
row recording the new price is appended before the update is applied, and
no row is appended when the values are equal; the harvest reconciler, by
contrast, overwrites `current_market_price` without ever appending to
`price_history`. -/
theorem price_update_history (db : DB) (c : String) (v : ℚ) (d n : Date)
    (old : CropStorageRow)
    (hfind : db.crop_storage.find? (fun r => r.crop_name == c) = some old) :
    (¬ old.current_market_price = v →
      (update_storage_field db c "current_market_price" (.num v) d n).2.price_history =
        db.price_history ++
          [{ crop_name := c, price := v, sale_location := none, price_date := d }]) ∧
    (old.current_market_price = v →
      (update_storage_field db c "current_market_price" (.num v) d n).2.price_history =
        db.price_history) ∧
    (∀ db2 pid f p db2',
      db2.planting_records.find? (fun q => q.planting_id == pid) = some p →
      add_harvest db2 pid f = some db2' →
      db2'.price_history = db2.price_history) := by
  refine ⟨?_, ?_, ?_⟩
  · intro hne
    rw [usf_price_history_proj]
    exact storagePriceHistory_ne db c v d old hfind hne
  · intro heq
    rw [usf_price_history_proj]
    exact storagePriceHistory_same db c v d old hfind heq
  · intro db2 pid f p db2' hp h
    have hdb := add_harvest_some db2 pid f p db2' hp h
    subst hdb
    exact mutateHarvest_price_history db2 pid p f

/-- Witness for the amended C4: updating Wheat's price from 100 to 150 via
the field updater logs a history row, re-sending 100 does not, and the
scenario harvest (which rewrites the price to 200) leaves the history
untouched. -/
theorem price_update_history_witness :
    sampleDB.crop_storage.find? (fun r => r.crop_name == "Wheat") = some wheatRow ∧
    ¬ wheatRow.current_market_price = (150 : ℚ) ∧
    (update_storage_field sampleDB "Wheat" "current_market_price" (.num 150)
      "2025-09-02" "2025-09-02T10:00").2.price_history =
      [{ crop_name := "Wheat", price := 150, sale_location := none,
         price_date := "2025-09-02" }] ∧
    (update_storage_field sampleDB "Wheat" "current_market_price" (.num 100)
      "2025-09-02" "2025-09-02T10:00").2.price_history = [] ∧
    sampleDB'.price_history = sampleDB.price_history := by
  have h := price_update_history sampleDB "Wheat" 150 "2025-09-02"
    "2025-09-02T10:00" wheatRow rfl
  have h2 := price_update_history sampleDB "Wheat" 100 "2025-09-02"
    "2025-09-02T10:00" wheatRow rfl
  refine ⟨rfl, by decide, ?_, ?_, ?_⟩
  · exact h.1 (by decide)
  · exact h2.2.1 (by decide)
  · exact h.2.2 sampleDB 1 scenarioHarvestForm samplePlanting sampleDB' rfl rfl

/-- C6 counterexample: with a negative planted area the denominator is -10,
which is not 0, yet the stored `cost_per_hectare` is 0 rather than the
quotient -18 — the code guards with a strict positivity test, not a
zero test. -/
theorem division_guard_negative_denominator :
    (add_planting sampleDB negAreaForm).planting_records.getLast? =
      some (mkPlantingRow 2 negAreaForm) ∧
    ¬ negAreaForm.planted_area_ha = 0 ∧
    (mkPlantingRow 2 negAreaForm).total_planting_cost = 180 ∧
    (mkPlantingRow 2 negAreaForm).cost_per_hectare = 0 ∧
    (mkPlantingRow 2 negAreaForm).total_planting_cost /
      negAreaForm.planted_area_ha = -18 ∧
    ¬ (0 : ℚ) = -18 := by
  refine ⟨?_, by decide, ?_, ?_, ?_, by norm_num⟩
  · show (sampleDB.planting_records ++ [mkPlantingRow 2 negAreaForm]).getLast? = _
    exact List.getLast?_concat _
  · norm_num [mkPlantingRow, negAreaForm, scenarioPlantingForm]
  · norm_num [mkPlantingRow, negAreaForm, scenarioPlantingForm]
  · norm_num [mkPlantingRow, negAreaForm, scenarioPlantingForm]

/-- C6 amended: every derived division in the planting and harvest
calculators is guarded by a strict positivity test on its denominator: a
denominator that is zero or negative yields 0 rather than an error, and a
positive denominator yields the quotient; in particular `roi_percent` is 0
whenever `total_costs` is not positive, regardless of `net_profit`. -/
theorem division_guards (db : DB) (fp : PlantingForm) (db2 : DB) (pid : Nat)
    (f : HarvestForm) (p : PlantingRow) (db2' : DB)
    (hp : db2.planting_records.find? (fun q => q.planting_id == pid) = some p)
    (h : add_harvest db2 pid f = some db2') :
    ((add_planting db fp).planting_records.getLast? =
      some (mkPlantingRow (nextPlantingId db) fp)) ∧
    (fp.planted_area_ha ≤ 0 →
      (mkPlantingRow (nextPlantingId db) fp).cost_per_hectare = 0) ∧
    (0 < fp.planted_area_ha →
      (mkPlantingRow (nextPlantingId db) fp).cost_per_hectare =
        (mkPlantingRow (nextPlantingId db) fp).total_planting_cost /
          fp.planted_area_ha) ∧
    (db2'.harvest_records.getLast? =
      some (mkHarvestRow p (maintenance_costs db2 pid) f)) ∧
    (let H := mkHarvestRow p (maintenance_costs db2 pid) f
     (H.harvested_area_ha ≤ 0 →
        H.yield_per_hectare = 0 ∧ H.profit_per_hectare = 0) ∧
     (0 < H.harvested_area_ha →
        H.yield_per_hectare = H.total_yield_tonnes / H.harvested_area_ha ∧
        H.profit_per_hectare = H.net_profit / H.harvested_area_ha) ∧
     (H.total_costs ≤ 0 → H.roi_percent = 0) ∧
     (0 < H.total_costs →
        H.roi_percent = H.net_profit / H.total_costs * 100) ∧
     (H.total_yield_tonnes ≤ 0 → H.break_even_price = 0) ∧
     (0 < H.total_yield_tonnes →
        H.break_even_price = H.total_costs / H.total_yield_tonnes)) := by
  have hdb := add_harvest_some db2 pid f p db2' hp h
  subst hdb
  refine ⟨?_, ?_, ?_, ?_, ?_, ?_, ?_, ?_, ?_, ?_⟩
  · show (db.planting_records ++ [mkPlantingRow (nextPlantingId db) fp]).getLast? = _
    exact List.getLast?_concat _
  · intro hle
    simp only [mkPlantingRow]
    rw [if_neg (not_lt.mpr hle)]
  · intro hpos
    simp only [mkPlantingRow]
    rw [if_pos hpos]
  · rw [mutateHarvest_harvest_records]
    exact List.getLast?_concat _
  · intro hle
    simp only [mkHarvestRow] at hle ⊢
    exact ⟨if_neg (not_lt.mpr hle), if_neg (not_lt.mpr hle)⟩
  · intro hpos
    simp only [mkHarvestRow] at hpos ⊢
    exact ⟨if_pos hpos, if_pos hpos⟩
  · intro hle
    simp only [mkHarvestRow] at hle ⊢
    exact if_neg (not_lt.mpr hle)
  · intro hpos
    simp only [mkHarvestRow] at hpos ⊢
    exact if_pos hpos
  · intro hle
    simp only [mkHarvestRow] at hle ⊢
    exact if_neg (not_lt.mpr hle)
  · intro hpos
    simp only [mkHarvestRow] at hpos ⊢
    exact if_pos hpos

/-- Witness for the amended C6: the scenario planting has a positive area,
so `cost_per_hectare` is the quotient, and the scenario harvest has positive
total costs, so `roi_percent` is the ROI quotient. -/
theorem division_guards_witness :
    (0 : ℚ) < scenarioPlantingForm.planted_area_ha ∧
    (mkPlantingRow 2 scenarioPlantingForm).cost_per_hectare =
      (mkPlantingRow 2 scenarioPlantingForm).total_planting_cost /
        scenarioPlantingForm.planted_area_ha ∧
    (0 : ℚ) < scenarioRow.total_costs ∧
    scenarioRow.roi_percent =
      scenarioRow.net_profit / scenarioRow.total_costs * 100 := by
  have h := division_guards sampleDB scenarioPlantingForm sampleDB 1
    scenarioHarvestForm samplePlanting sampleDB' rfl rfl
  have harea : (0 : ℚ) < scenarioPlantingForm.planted_area_ha := by
    norm_num [scenarioPlantingForm]
  have hcost : (0 : ℚ) < scenarioRow.total_costs := by
    norm_num [scenarioRow, mkHarvestRow, samplePlanting, scenarioHarvestForm,
      maintenance_costs, sampleDB]
  exact ⟨harea, h.2.2.1 harea, hcost, (h.2.2.2.2.2.2.2.1 : _) hcost⟩

/-- C7: a stored planting record's `total_planting_cost` is exactly the sum
of the seven itemized costs, and `cost_per_hectare` is `total/area` for a
positive area and 0 for a zero area. -/
theorem planting_cost_totals (db : DB) (fp : PlantingForm)
    (hnn : 0 ≤ fp.seed_cost ∧ 0 ≤ fp.fertilizer_cost ∧ 0 ≤ fp.lime_cost ∧
      0 ≤ fp.labor_cost ∧ 0 ≤ fp.equipment_cost ∧ 0 ≤ fp.fuel_cost ∧
      0 ≤ fp.other_costs) :
    (add_planting db fp).planting_records.getLast? =
      some (mkPlantingRow (nextPlantingId db) fp) ∧
    (mkPlantingRow (nextPlantingId db) fp).total_planting_cost =
      fp.seed_cost + fp.fertilizer_cost + fp.lime_cost + fp.labor_cost +
      fp.equipment_cost + fp.fuel_cost + fp.other_costs ∧
    (0 < fp.planted_area_ha →
      (mkPlantingRow (nextPlantingId db) fp).cost_per_hectare =
        (mkPlantingRow (nextPlantingId db) fp).total_planting_cost /
          fp.planted_area_ha) ∧
    (fp.planted_area_ha = 0 →
      (mkPlantingRow (nextPlantingId db) fp).cost_per_hectare = 0) := by
  refine ⟨?_, rfl, ?_, ?_⟩
  · show (db.planting_records ++ [mkPlantingRow (nextPlantingId db) fp]).getLast? = _
    exact List.getLast?_concat _
  · intro hpos
    simp only [mkPlantingRow]
    rw [if_pos hpos]
  · intro hzero
    simp only [mkPlantingRow]
    rw [if_neg (by rw [hzero]; exact lt_irrefl 0)]

/-- Witness for C7 at the spec's scenario: costs 100, 50 and 30 over 10
hectares give a stored total of 180 and 18 per hectare. -/
theorem planting_cost_totals_witness :
    ((0:ℚ) ≤ 100 ∧ (0:ℚ) ≤ 50 ∧ (0:ℚ) ≤ 0 ∧ (0:ℚ) ≤ 30 ∧ (0:ℚ) ≤ 0 ∧
      (0:ℚ) ≤ 0 ∧ (0:ℚ) ≤ 0) ∧
    (add_planting sampleDB scenarioPlantingForm).planting_records.getLast? =
      some (mkPlantingRow 2 scenarioPlantingForm) ∧
    (mkPlantingRow 2 scenarioPlantingForm).total_planting_cost = 180 ∧
    (mkPlantingRow 2 scenarioPlantingForm).cost_per_hectare = 18 := by
  have h := planting_cost_totals sampleDB scenarioPlantingForm
    (by norm_num [scenarioPlantingForm])
  refine ⟨by norm_num, h.1, ?_, ?_⟩
  · norm_num [mkPlantingRow, scenarioPlantingForm]
  · norm_num [mkPlantingRow, scenarioPlantingForm]

/-- C8: the generic storage field updater rejects every field name outside
the allow-list, answering the "Invalid field" error and leaving the whole
database (in particular `crop_storage`) unchanged; only allow-listed names
proceed to the UPDATE. -/
theorem storage_field_allowlist (db : DB) (c fn : String) (v : SqlValue)
    (d n : Date) (hfn : allowed_fields.contains fn = false) :
    update_storage_field db c fn v d n = (.failure "Invalid field", db) := by
  unfold update_storage_field
  rw [hfn]
  rfl

/-- Witness for C8: the column name `crop_name` is not allow-listed and the
update attempt is rejected with the database unchanged. -/
theorem storage_field_allowlist_witness :
    allowed_fields.contains "crop_name" = false ∧
    update_storage_field sampleDB "Wheat" "crop_name" (.str "Sneaky")
      "2025-09-02" "2025-09-02T10:00" = (.failure "Invalid field", sampleDB) := by
  have h := storage_field_allowlist sampleDB "Wheat" "crop_name" (.str "Sneaky")
    "2025-09-02" "2025-09-02T10:00" rfl
  exact ⟨rfl, h⟩

/-- C9: when no `crop_storage` row matches the requested crop name, both
AJAX endpoints modify nothing and still report success rather than a
not-found error: the quantity updater answers ok with total value 0, and
the field updater (for an allow-listed field whose value passes the numeric
conversion) answers ok with total value 0, capacity 0 and the formatted
string for zero dollars. -/
theorem missing_crop_silent_success (db : DB) (c : String) (q : ℚ)
    (fn : String) (v : SqlValue) (d n now2 : Date)
    (hc : ∀ r ∈ db.crop_storage, ¬ r.crop_name = c)
    (hfn : allowed_fields.contains fn = true)
    (hv : numeric_fields.contains fn = true → ∃ x, v = .num x) :
    update_quantity db c q now2 = (.ok 0, db) ∧
    update_storage_field db c fn v d n = (.ok 0 (some 0) "$0", db) := by
  have hbeq : ∀ r ∈ db.crop_storage, (r.crop_name == c) = false :=
    fun r hr => beq_eq_false_iff_ne.mpr (hc r hr)
  have hfindnone : db.crop_storage.find? (fun r => r.crop_name == c) = none :=
    List.find?_eq_none.mpr (fun r hr => by simp [hbeq r hr])
  constructor
  · have hmap := map_fix_eq_self
      (fun r : CropStorageRow =>
        if r.crop_name == c then
          { r with quantity_stored := q, updated_date := now2 }
        else r)
      db.crop_storage
      (fun r hr => if_neg (by simp [hbeq r hr]))
    simp only [update_quantity]
    rw [hmap, hfindnone]
  · have hmap2 := map_fix_eq_self
      (fun r : CropStorageRow =>
        if r.crop_name == c then applyStorageField r fn v n else r)
      db.crop_storage
      (fun r hr => if_neg (by simp [hbeq r hr]))
    have hresp : storageUpdateResp db.crop_storage c = .ok 0 (some 0) "$0" := by
      unfold storageUpdateResp
      rw [hfindnone]
    have hsp : storagePriceHistory db c (SqlValue.toNum v) d = db := by
      unfold storagePriceHistory
      rw [hfindnone]
    simp only [update_storage_field]
    rw [hfn]
    cases hnumc : numeric_fields.contains fn with
    | false =>
      rw [hsp, ite_self, hmap2, hresp]
      rfl
    | true =>
      obtain ⟨x, hx⟩ := hv hnumc
      subst hx
      rw [hsp, ite_self, hmap2, hresp]
      rfl

/-- Witness for C9: Rice has no storage row in the sample database, yet
both endpoints answer success with a zero total value and leave the
database exactly as it was. -/
theorem missing_crop_silent_success_witness :
    (∀ r ∈ sampleDB.crop_storage, ¬ r.crop_name = "Rice") ∧
    update_quantity sampleDB "Rice" 7 "2025-09-02" = (.ok 0, sampleDB) ∧
    update_storage_field sampleDB "Rice" "quantity_stored" (.num 7)
      "2025-09-02" "2025-09-02T10:00" = (.ok 0 (some 0) "$0", sampleDB) := by
  have h := missing_crop_silent_success sampleDB "Rice" 7 "quantity_stored"
    (.num 7) "2025-09-02" "2025-09-02T10:00" "2025-09-02"
    (by decide) rfl (fun _ => ⟨7, rfl⟩)
  exact ⟨by decide, h.1, h.2⟩

/-- C10: the delete-location operation removes a `sale_locations` row only
when no `crop_storage` row's `sale_location` equals that location's name;
when at least one crop references it, the deletion is refused with an
in-use notice and the database is left unchanged. -/
theorem location_in_use_not_deleted (db : DB) (lid : Nat) (loc : LocationRow)
    (hloc : db.sale_locations.find? (fun l => l.location_id == lid) = some loc) :
    ((∃ r ∈ db.crop_storage, r.sale_location = loc.location_name) →
      0 < (db.crop_storage.filter
        (fun r => r.sale_location == loc.location_name)).length ∧
      delete_location db lid =
        (.inUse (db.crop_storage.filter
          (fun r => r.sale_location == loc.location_name)).length, db)) ∧
    ((∀ r ∈ db.crop_storage, ¬ r.sale_location = loc.location_name) →
      delete_location db lid =
        (.deleted loc.location_name,
         { db with sale_locations :=
            db.sale_locations.filter (fun l => !(l.location_id == lid)) })) := by
  constructor
  · rintro ⟨r, hr, hname⟩
    have hmem : r ∈ db.crop_storage.filter
        (fun rr => rr.sale_location == loc.location_name) :=
      List.mem_filter.mpr ⟨hr, by simp [hname]⟩
    have hpos : 0 < (db.crop_storage.filter
        (fun rr => rr.sale_location == loc.location_name)).length :=
      List.length_pos.mpr (by
        intro hnil
        rw [hnil] at hmem
        exact List.not_mem_nil r hmem)
    refine ⟨hpos, ?_⟩
    unfold delete_location
    rw [hloc]
    show (if 0 < (db.crop_storage.filter
          (fun rr => rr.sale_location == loc.location_name)).length then
        (DeleteLocResult.inUse (db.crop_storage.filter
          (fun rr => rr.sale_location == loc.location_name)).length, db)
      else
        (DeleteLocResult.deleted loc.location_name,
         { db with sale_locations :=
            db.sale_locations.filter (fun l => !(l.location_id == lid)) })) = _
    rw [if_pos hpos]
  · intro hnone
    have hzero : db.crop_storage.filter
        (fun rr => rr.sale_location == loc.location_name) = [] :=
      List.filter_eq_nil_iff.mpr (fun a ha => by simp [hnone a ha])
    unfold delete_location
    rw [hloc]
    show (if 0 < (db.crop_storage.filter
          (fun rr => rr.sale_location == loc.location_name)).length then
        (DeleteLocResult.inUse (db.crop_storage.filter
          (fun rr => rr.sale_location == loc.location_name)).length, db)
      else
        (DeleteLocResult.deleted loc.location_name,
         { db with sale_locations :=
            db.sale_locations.filter (fun l => !(l.location_id == lid)) })) = _
    rw [hzero]
    rfl

/-- Witness for C10: the Grain Elevator location is referenced by the Wheat
storage row, so deleting it is refused and the database is unchanged. -/
theorem location_in_use_not_deleted_witness :
    sampleDB.sale_locations.find? (fun l => l.location_id == 1) =
      some { location_id := 1, location_name := "Grain Elevator" } ∧
    wheatRow ∈ sampleDB.crop_storage ∧
    wheatRow.sale_location = "Grain Elevator" ∧
    delete_location sampleDB 1 = (.inUse 1, sampleDB) := by
  have h := location_in_use_not_deleted sampleDB 1
    { location_id := 1, location_name := "Grain Elevator" } rfl
  have h1 := h.1 ⟨wheatRow, by decide, rfl⟩
  exact ⟨rfl, by decide, rfl, h1.2⟩

end FarmDash
